import Mathlib

/-!
Verification of the xv6 pseudo-random character device in
`src/kernel/random.c`: the 8-bit LFSR step function `lfsr_char`, the
device entry points `randomread`, `randomwrite` and `randominit`, and
their registration in the device-dispatch table.

Machine bytes (`uint8`) are embedded as `Nat` with explicit `% 256`
truncation where the C code assigns an `int`-valued expression to a
`uint8`.  The checked user-space copy primitives `either_copyout` /
`either_copyin` are external collaborators of this file (they live in
xv6's `proc.c`, not in `src/`), so their outcomes are abstracted:
`either_copyout` by a per-iteration success oracle, `either_copyin` by
an `Option Nat` holding the byte read from the source when the copy
succeeds.
-/

/-- Embedding of `lfsr_char` (src/kernel/random.c, lines 31-42).
`bit = ((lfsr >> 0) ^ (lfsr >> 2) ^ (lfsr >> 3) ^ (lfsr >> 4)) & 0x01;`
`lfsr = (lfsr >> 1) | (bit << 7);` — the final assignment to the
`uint8` variable truncates mod 256. -/
def lfsr_char (lfsr : Nat) : Nat :=
  let bit := ((lfsr >>> 0) ^^^ (lfsr >>> 2) ^^^ (lfsr >>> 3) ^^^ (lfsr >>> 4)) &&& 0x01
  ((lfsr >>> 1) ||| (bit <<< 7)) % 256

/-- The spec's description of the LFSR step, written from the spec's
words only (for comparison against `lfsr_char`): "a feedback bit as the
exclusive-or of bits at positions 0, 2, 3, and 4 of `state` (bit 0 =
least significant), masked to a single bit", and "the new state by
shifting `state` right by one bit and inserting the feedback bit as the
new most-significant bit (bit 7)". -/
def lfsr_specStep (s : Nat) : Nat :=
  let fb := (((s.testBit 0).xor ((s.testBit 2).xor ((s.testBit 3).xor (s.testBit 4)))))
  (s >>> 1) + (if fb then 2 ^ 7 else 0)

/-- `k`-fold advancement of the seed by `lfsr_char` (first step innermost). -/
def lfsrIter : Nat → Nat → Nat
  | 0, s => s
  | k + 1, s => lfsrIter k (lfsr_char s)

/-- The loop body of `randomread` (src/kernel/random.c, lines 62-71):
`for (i = 0; i < n; i++) { lfsrRet = lfsr_char(rand.seed); rand.seed = lfsrRet;`
`  if (either_copyout(fd, dst, &rand.seed, 1) == -1) break; }`
`copyok i` abstracts whether the one-byte `either_copyout` of iteration
`i` succeeds.  Returns the C loop's final `i` (the function's return
value), the final seed, and the list of bytes successfully copied out. -/
def readLoop (copyok : Nat → Bool) (seed : Nat) (i : Nat) :
    Nat → List Nat → Nat × Nat × List Nat
  | 0, out => (i, seed, out.reverse)
  | fuel + 1, out =>
    let lfsrRet := lfsr_char seed
    if copyok i then
      readLoop copyok lfsrRet (i + 1) fuel (lfsrRet :: out)
    else
      (i, lfsrRet, out.reverse)

/-- Embedding of `randomread` (src/kernel/random.c, lines 53-75): clamp
`n` to at most 8 (`if (n > 8) n = 8;`), run the loop, return `i`.  The
`fd`/`dst` arguments are absorbed into the `copyok` oracle; `n` is the
C `int` argument. -/
def randomread (copyok : Nat → Bool) (seed : Nat) (n : Int) :
    Nat × Nat × List Nat :=
  let n' : Int := if n > 8 then 8 else n
  readLoop copyok seed 0 n'.toNat []

/-- Embedding of `randomwrite` (src/kernel/random.c, lines 83-94):
`if (n != 1) return -1;` then, under the lock,
`ret = either_copyin(&rand.seed, src, src, 1);` and return `ret`.
`copyin` abstracts the one-byte `either_copyin`: `some b` when the copy
succeeds and reads byte `b` from the source, `none` when it fails.
Modelled from the spec for the part outside `src/`: `either_copyin`
(xv6 `proc.c`) is the "checked copy-to/copy-from-user primitive"
reporting failure by status; per the convention the source's own
`== -1` checks rely on, it returns 0 on success and -1 on failure, and
a failed one-byte copy writes nothing.  Returns (return value, final
seed, whether the lock was acquired during the call). -/
def randomwrite (copyin : Option Nat) (seed : Nat) (n : Int) :
    Int × Nat × Bool :=
  if n ≠ 1 then (-1, seed, false)
  else
    match copyin with
    | some b => (0, b % 256, true)
    | none => (-1, seed, true)

/-- The RANDOM slot of the device-dispatch table `devsw`, holding the
registered `read` and `write` handlers (the table itself is an external
collaborator; only this driver's slot is modelled). -/
structure DevswSlot where
  read : Option ((Nat → Bool) → Nat → Int → Nat × Nat × List Nat)
  write : Option (Option Nat → Nat → Int → Int × Nat × Bool)

/-- The driver state produced by initialization: the seed and the
RANDOM slot of `devsw`. -/
structure RandDevState where
  seed : Nat
  devswRandom : DevswSlot

/-- Embedding of `randominit` (src/kernel/random.c, lines 101-109):
`devsw[RANDOM].read = randomread; devsw[RANDOM].write = randomwrite;`
`rand.seed = 0x2A;` (lock initialization has no modelled content). -/
def randominit : RandDevState :=
  { seed := 0x2A
    devswRandom := { read := some randomread, write := some randomwrite } }

/-- The copied-bytes component of `readLoop` splits off the accumulator. -/
theorem readLoop_out_append (copyok : Nat → Bool) :
    ∀ (fuel : Nat) (seed i : Nat) (out : List Nat),
      (readLoop copyok seed i fuel out).2.2 =
        out.reverse ++ (readLoop copyok seed i fuel []).2.2 := by
  intro fuel
  induction fuel with
  | zero => intro seed i out; simp [readLoop]
  | succ fuel ih =>
    intro seed i out
    by_cases h : copyok i = true
    · simp only [readLoop, h, if_true]
      rw [ih _ _ (lfsr_char seed :: out), ih _ _ [lfsr_char seed]]
      simp
    · simp [readLoop, h]

/-- `readLoop` never copies out more bytes than it has fuel. -/
theorem readLoop_out_length_le (copyok : Nat → Bool) :
    ∀ (fuel : Nat) (seed i : Nat),
      (readLoop copyok seed i fuel []).2.2.length ≤ fuel := by
  intro fuel
  induction fuel with
  | zero => intro seed i; simp [readLoop]
  | succ fuel ih =>
    intro seed i
    by_cases h : copyok i = true
    · simp only [readLoop, h, if_true]
      rw [readLoop_out_append]
      simpa using Nat.succ_le_succ (ih (lfsr_char seed) (i + 1))
    · simp [readLoop, h]

set_option maxRecDepth 8192 in
/-- Claim C1: for every 8-bit state `s`, `lfsr_char s` equals the
spec's description: `s >>> 1` with the feedback bit (xor of bits
0, 2, 3, 4 of `s`, masked to one bit) inserted as the new bit 7. -/
theorem lfsr_char_matches_spec (s : Nat) (hs : s < 256) :
    lfsr_char s = lfsr_specStep s := by
  revert hs
  revert s
  decide

/-- Witness for C1 at the concrete state 0x2A. -/
theorem lfsr_char_matches_spec_witness :
    lfsr_char 0x2A = lfsr_specStep 0x2A :=
  lfsr_char_matches_spec 0x2A (by decide)

/-- Claim C2: writing one byte `b` replaces the seed wholesale with
`b`, and the first byte produced by the next read is `lfsr_char b`,
not `b` itself. -/
theorem randomwrite_reseed_then_read (b s : Nat) (hb : b < 256)
    (copyok : Nat → Bool) (h0 : copyok 0 = true) (n : Int) (hn : 1 ≤ n) :
    (randomwrite (some b) s 1).2.1 = b ∧
    (randomread copyok (randomwrite (some b) s 1).2.1 n).2.2.head? =
      some (lfsr_char b) := by
  have hseed : (randomwrite (some b) s 1).2.1 = b := by
    simp [randomwrite, Nat.mod_eq_of_lt hb]
  refine ⟨hseed, ?_⟩
  rw [hseed]
  have hk : ∃ k, (if n > 8 then (8 : Int) else n).toNat = k + 1 :=
    ⟨(if n > 8 then (8 : Int) else n).toNat - 1, by split <;> omega⟩
  obtain ⟨k, hk⟩ := hk
  show (readLoop copyok b 0 (if n > 8 then (8 : Int) else n).toNat []).2.2.head? = _
  rw [hk]
  simp only [readLoop, h0, if_true]
  rw [readLoop_out_append]
  simp

/-- Witness for C2 at b = 0x55, seed 0, an always-succeeding copy, n = 1. -/
theorem randomwrite_reseed_then_read_witness :
    (randomwrite (some 0x55) 0 1).2.1 = 0x55 ∧
    (randomread (fun _ => true) (randomwrite (some 0x55) 0 1).2.1 1).2.2.head? =
      some (lfsr_char 0x55) :=
  randomwrite_reseed_then_read 0x55 0 (by decide) (fun _ => true) rfl 1 (by decide)

/-- Claim C3 (evaluation at the failing input): a length-1 write whose
one-byte copy succeeds returns 0 — the copy primitive's success
status, not a positive count; the initialisation `ret = 1` in the
source is dead-stored. -/
theorem randomwrite_success_status_is_zero :
    randomwrite (some 0xAB) 0x2A 1 = (0, 0xAB, true) ∧
    ¬ 0 < (randomwrite (some 0xAB) 0x2A 1).1 := by
  decide

/-- Claim C4: when the copies of bytes 1 and 2 succeed and the copy of
the 3rd byte fails (n at least 3), the call returns exactly 2, the
seed has been advanced by lfsr_char exactly 3 times (the failed
iteration's update is committed before its copy), and exactly 2 bytes
were copied out. -/
theorem randomread_fail_on_third (copyok : Nat → Bool) (s : Nat) (n : Int)
    (h0 : copyok 0 = true) (h1 : copyok 1 = true) (h2 : copyok 2 = false)
    (hn : 3 ≤ n) :
    (randomread copyok s n).1 = 2 ∧
    (randomread copyok s n).2.1 = lfsrIter 3 s ∧
    (randomread copyok s n).2.2.length = 2 := by
  have hk : ∃ k, (if n > 8 then (8 : Int) else n).toNat = k + 3 :=
    ⟨(if n > 8 then (8 : Int) else n).toNat - 3, by split <;> omega⟩
  obtain ⟨k, hk⟩ := hk
  have hmain : randomread copyok s n =
      (2, lfsrIter 3 s, [lfsr_char s, lfsr_char (lfsr_char s)]) := by
    show readLoop copyok s 0 (if n > 8 then (8 : Int) else n).toNat [] = _
    rw [hk]
    simp [readLoop, h0, h1, h2, lfsrIter]
  rw [hmain]
  simp

/-- Witness for C4 with a copy oracle succeeding only on offsets 0 and
1, seed 0x2A, n = 5. -/
theorem randomread_fail_on_third_witness :
    (randomread (fun i => decide (i < 2)) 0x2A 5).1 = 2 ∧
    (randomread (fun i => decide (i < 2)) 0x2A 5).2.1 = lfsrIter 3 0x2A ∧
    (randomread (fun i => decide (i < 2)) 0x2A 5).2.2.length = 2 :=
  randomread_fail_on_third (fun i => decide (i < 2)) 0x2A 5 rfl rfl rfl (by decide)

/-- Claim C5: for n greater than 8 with all copies succeeding, the read
returns 8, advances the seed by lfsr_char exactly 8 times, and copies
out exactly 8 bytes; moreover no call ever copies out more than 8
bytes. -/
theorem randomread_clamps_to_eight (copyok : Nat → Bool) (s : Nat) (n : Int)
    (hn : 8 < n) (hok : ∀ i, copyok i = true) :
    (randomread copyok s n).1 = 8 ∧
    (randomread copyok s n).2.1 = lfsrIter 8 s ∧
    (randomread copyok s n).2.2.length = 8 ∧
    ∀ (c : Nat → Bool) (s' : Nat) (m : Int),
      (randomread c s' m).2.2.length ≤ 8 := by
  have h8 : (if n > 8 then (8 : Int) else n).toNat = 8 := by split <;> omega
  have hmain : randomread copyok s n =
      readLoop copyok s 0 8 [] := by
    show readLoop copyok s 0 (if n > 8 then (8 : Int) else n).toNat [] = _
    rw [h8]
  refine ⟨?_, ?_, ?_, ?_⟩
  · rw [hmain]; simp [readLoop, hok]
  · rw [hmain]; simp [readLoop, hok, lfsrIter]
  · rw [hmain]; simp [readLoop, hok]
  · intro c s' m
    have hle : (if m > 8 then (8 : Int) else m).toNat ≤ 8 := by split <;> omega
    exact (readLoop_out_length_le c (if m > 8 then (8 : Int) else m).toNat s' 0).trans hle

/-- Witness for C5 with an always-succeeding copy, seed 0x2A, n = 20. -/
theorem randomread_clamps_to_eight_witness :
    (randomread (fun _ => true) 0x2A 20).1 = 8 ∧
    (randomread (fun _ => true) 0x2A 20).2.1 = lfsrIter 8 0x2A ∧
    (randomread (fun _ => true) 0x2A 20).2.2.length = 8 ∧
    ∀ (c : Nat → Bool) (s' : Nat) (m : Int),
      (randomread c s' m).2.2.length ≤ 8 :=
  randomread_clamps_to_eight (fun _ => true) 0x2A 20 (by decide) (fun _ => rfl)

/-- Claim C6: a write whose length is not 1 (0, 2, negative, anything)
returns -1, leaves the seed unchanged, and never acquires the lock. -/
theorem randomwrite_rejects_bad_length (copyin : Option Nat) (s : Nat)
    (n : Int) (hn : n ≠ 1) :
    randomwrite copyin s n = (-1, s, false) := by
  simp [randomwrite, hn]

/-- Witness for C6 at length 2 with a valid source byte. -/
theorem randomwrite_rejects_bad_length_witness :
    randomwrite (some 0x07) 0x2A 2 = (-1, 0x2A, false) :=
  randomwrite_rejects_bad_length (some 0x07) 0x2A 2 (by decide)

/-- Claim C7: a length-1 write whose one-byte copy from the source
fails returns the copy primitive's failure status (-1) and leaves the
seed unchanged. -/
theorem randomwrite_copy_fault_keeps_seed (s : Nat) :
    randomwrite none s 1 = (-1, s, true) := by
  simp [randomwrite]

/-- Claim C8: after initialization the stored seed is exactly 0x2A,
and randomread / randomwrite are registered as the read and write
handlers of this device's slot in the dispatch table. -/
theorem randominit_seed_and_handlers :
    randominit.seed = 0x2A ∧
    randominit.devswRandom.read = some randomread ∧
    randominit.devswRandom.write = some randomwrite :=
  ⟨rfl, rfl, rfl⟩

/-- Claim C9: the all-zero state is a fixed point of the LFSR step, so
every iterate from seed 0 stays 0. -/
theorem lfsr_char_zero_fixed_point :
    lfsr_char 0 = 0 ∧ ∀ k, lfsrIter k 0 = 0 := by
  refine ⟨rfl, ?_⟩
  intro k
  induction k with
  | zero => rfl
  | succ k ih => simpa [lfsrIter, lfsr_char] using ih

/-- Claim C10: a read with a non-positive requested length returns 0,
copies out no bytes, and leaves the seed unchanged. -/
theorem randomread_nonpositive_length (copyok : Nat → Bool) (s : Nat)
    (n : Int) (hn : n ≤ 0) :
    randomread copyok s n = (0, s, []) := by
  have h0 : (if n > 8 then (8 : Int) else n).toNat = 0 := by split <;> omega
  show readLoop copyok s 0 (if n > 8 then (8 : Int) else n).toNat [] = _
  rw [h0]
  simp [readLoop]

/-- Witness for C10 at length -5. -/
theorem randomread_nonpositive_length_witness :
    randomread (fun _ => true) 0x2A (-5) = (0, 0x2A, []) :=
  randomread_nonpositive_length (fun _ => true) 0x2A (-5) (by decide)
